import Mathlib

/-!
Verification development for `macad_gym/core/controllers/basic_agent.py`
(class `Basic_Agent`): a per-tick maneuver decision and trajectory-tracking
controller.  Pure shallow embedding: distances and control magnitudes are
rationals, external geometry results (distances, road ids, dot products,
angle checks) are supplied as per-tick data, and randomness (`random.choice`)
is supplied as an oracle index `pick`.
-/

namespace BasicAgent

section

attribute [local semireducible] Rat.add Rat.sub Rat.mul Rat.inv

/-- The maneuver actions, from `macad_gym.core.utils.wrapper.Action`
(module not under `src/`).  Modelled from the spec: enumerated
{HOLD_LANE, CHANGE_LEFT, CHANGE_RIGHT}, "each with a signed lane delta
magnitude used to compute destination lane index". -/
inductive Action where
  | LANE_FOLLOW
  | LANE_CHANGE_LEFT
  | LANE_CHANGE_RIGHT
deriving DecidableEq, Repr

/-- Modelled from the spec: the signed lane delta of each action
(`new_target_lane = current_lane - new_action.value`; the spec's
completed-change scenario fixes CENTER=-2 minus delta of CHANGE_LEFT
to be LEFT=-1, so the deltas are 0 / -1 / +1). -/
def Action.value : Action → Int
  | .LANE_FOLLOW => 0
  | .LANE_CHANGE_LEFT => -1
  | .LANE_CHANGE_RIGHT => 1

/-- The six per-slot nearest-vehicle distances set by `set_info`
(fields `distance_to_left_front` .. `distance_to_right_rear`). -/
structure GapInfo where
  left_front : ℚ
  center_front : ℚ
  right_front : ℚ
  left_rear : ℚ
  center_rear : ℚ
  right_rear : ℚ
deriving DecidableEq, Repr

/-- Abstract waypoint (a pose owned by the external perception layer;
only its identity matters to this controller). -/
structure Waypoint where
  wp_id : Nat
deriving DecidableEq, Repr

/-- Raw output of the external PID primitive
`VehiclePIDController.run_step`. -/
structure RawControl where
  throttle : ℚ
  brake : ℚ
  steer : ℚ
  gear : Int
deriving DecidableEq, Repr

/-- The emitted command, from `macad_gym.core.utils.wrapper.ControlInfo`
(module not under `src/`).  Modelled from the spec: {throttle, brake,
steer, gear}; the hand-brake field is the one `add_emergency_stop`
writes, off by default. -/
structure ControlInfo where
  throttle : ℚ
  brake : ℚ
  steer : ℚ
  gear : Int
  hand_brake : Bool
deriving DecidableEq, Repr

/-- Traffic-light state (`carla.TrafficLightState`); only Red is
distinguished by the controller. -/
inductive TLState where
  | Red
  | Yellow
  | Green
deriving DecidableEq, Repr

/-- One traffic light as seen on a tick.  The geometric quantities the
code obtains from external utilities (`get_trafficlight_trigger_location`,
`map.get_waypoint`, forward vectors, `is_within_distance`) are supplied
as per-tick data:
* `trigger_dist`: distance from the light's trigger-volume waypoint to
  the ego location;
* `trigger_road_id`: road id of that waypoint (compared to ego's);
* `dot_ve_wp`: dot product of ego forward vector and trigger forward vector;
* `within`: result of `is_within_distance(trigger, vehicle, max_distance, [0, 90])`.
The `_lights_map` memoization of the trigger waypoint per light id is
dropped: `get_trafficlight_trigger_location` is deterministic per light,
so the memo does not change any result. -/
structure TrafficLight where
  tlid : Nat
  state : TLState
  trigger_dist : ℚ
  trigger_road_id : Int
  dot_ve_wp : ℚ
  within : Bool
deriving DecidableEq, Repr

/-- The persistent lane-change state of `Basic_Agent`
(`self.last_lane`, initially `None`, and `self.lane_change_mode`,
initially `False`). -/
structure LaneState where
  last_lane : Option Int
  lane_change_mode : Bool
deriving DecidableEq, Repr

/-- `init_random_change`: the weighted candidate list for the left lane
(`lanechanging_fps` copies of LANE_FOLLOW, then one LANE_CHANGE_RIGHT). -/
def left_random_change (fps : Nat) : List Action :=
  List.replicate fps Action.LANE_FOLLOW ++ [Action.LANE_CHANGE_RIGHT]

/-- `init_random_change`: the weighted candidate list for the center lane
(`lanechanging_fps` copies of LANE_FOLLOW, then LANE_CHANGE_RIGHT and
LANE_CHANGE_LEFT). -/
def center_random_change (fps : Nat) : List Action :=
  List.replicate fps Action.LANE_FOLLOW ++
    [Action.LANE_CHANGE_RIGHT, Action.LANE_CHANGE_LEFT]

/-- `init_random_change`: the weighted candidate list for the right lane
(`lanechanging_fps` copies of LANE_FOLLOW, then one LANE_CHANGE_LEFT). -/
def right_random_change (fps : Nat) : List Action :=
  List.replicate fps Action.LANE_FOLLOW ++ [Action.LANE_CHANGE_LEFT]

/-- `random.choice(xs)` modelled by an oracle index: pick element
`pick % xs.length`. -/
def choice (xs : List Action) (pick : Nat) : Action :=
  xs.getD (pick % xs.length) Action.LANE_FOLLOW

/-- The randomized candidate policy of `_lane_change_action`
(`random_lane_change = True` branch, lines 266-275): a draw from the
per-lane weighted list; any unrecognized lane yields LANE_FOLLOW
("just to avoid error, dont work"). -/
def random_policy (fps : Nat) (current_lane : Int) (pick : Nat) : Action :=
  if current_lane = -2 then choice (center_random_change fps) pick
  else if current_lane = -1 then choice (left_random_change fps) pick
  else if current_lane = -3 then choice (right_random_change fps) pick
  else Action.LANE_FOLLOW

/-- The gap-based candidate policy of `_lane_change_action`
(`random_lane_change = False` branch, lines 276-299). -/
def gap_lane_change (current_lane : Int) (g : GapInfo) (pick : Nat) : Action :=
  if current_lane = -2 then
    let change_choice : List Action :=
      (if g.left_front - g.center_front > 5 ∧ g.left_rear > 1 then
        [Action.LANE_CHANGE_LEFT] else []) ++
      (if g.right_front - g.center_front > 5 ∧ g.right_rear > 1 then
        [Action.LANE_CHANGE_RIGHT] else [])
    if change_choice.length = 0 then Action.LANE_FOLLOW
    else choice change_choice pick
  else if current_lane = -1 then
    if g.right_front - g.center_front > 5 ∧ g.right_rear > 1 then
      Action.LANE_CHANGE_RIGHT
    else Action.LANE_FOLLOW
  else if current_lane = -3 then
    if g.left_front - g.center_front > 5 ∧ g.left_rear > 1 then
      Action.LANE_CHANGE_LEFT
    else Action.LANE_FOLLOW
  else Action.LANE_FOLLOW

/-- The enablement gating of `_lane_change_action` (lines 301-304): a
candidate change is downgraded to LANE_FOLLOW when its side is not
enabled. -/
def gate (enable_left enable_right : Bool) (a : Action) : Action :=
  let a1 := if a = Action.LANE_CHANGE_LEFT ∧ ¬enable_left then
    Action.LANE_FOLLOW else a
  if a1 = Action.LANE_CHANGE_RIGHT ∧ ¬enable_right then
    Action.LANE_FOLLOW else a1

/-- `_lane_change_action` (lines 265-329): candidate selection by the
configured policy, enablement gating, then the lane-change state
machine.  `pick` is the randomness oracle.  Note Python truthiness of
`if self.last_lane:` (false for `None` and for lane `0`).  Returns the
updated state and the `(new_action, new_target_lane)` pair. -/
def lane_change_action (random_lane_change : Bool) (fps : Nat) (g : GapInfo)
    (enable_left enable_right : Bool) (s : LaneState)
    (current_lane last_target_lane : Int) (last_action : Action)
    (pick : Nat) : LaneState × Action × Int :=
  let cand0 := if random_lane_change then random_policy fps current_lane pick
    else gap_lane_change current_lane g pick
  let cand := gate enable_left enable_right cand0
  match s.last_lane with
  | some l =>
    if l ≠ 0 then
      if current_lane = l then
        if s.lane_change_mode then
          (⟨some current_lane, s.lane_change_mode⟩,
            last_action, last_target_lane)
        else
          (⟨some current_lane, decide (cand ≠ Action.LANE_FOLLOW)⟩,
            cand, current_lane - cand.value)
      else
        (⟨some current_lane, false⟩, Action.LANE_FOLLOW, current_lane)
    else
      (⟨some current_lane, false⟩, Action.LANE_FOLLOW, current_lane)
  | none => (⟨some current_lane, false⟩, Action.LANE_FOLLOW, current_lane)

/-- Per-tick inputs to the maneuver decision: the reported lane, the
enablement flags as refreshed by `set_info`, the gap distances, and the
randomness oracle. -/
structure TickInput where
  current_lane : Int
  enable_left : Bool
  enable_right : Bool
  g : GapInfo
  pick : Nat
deriving DecidableEq, Repr

/-- A sequence of ticks of `_lane_change_action`, threading the state and
feeding each tick's output `(action, target_lane)` back as the next
tick's `(last_action, last_target_lane)` (as `run_step`'s caller does).
Returns the list of per-tick outputs and the final state. -/
def runTrace (random_lane_change : Bool) (fps : Nat) (s : LaneState)
    (prev : Action × Int) : List TickInput → List (Action × Int) × LaneState
  | [] => ([], s)
  | t :: rest =>
    let r := lane_change_action random_lane_change fps t.g t.enable_left
      t.enable_right s t.current_lane prev.2 prev.1 t.pick
    let tail := runTrace random_lane_change fps r.1 r.2 rest
    (r.2 :: tail.1, tail.2)

/-- Invariant of the lane-change state machine: whenever a change is in
progress, the recorded last lane is one of the recognized lanes. -/
def ModeInv (s : LaneState) : Prop :=
  s.lane_change_mode = true →
    s.last_lane = some (-1) ∨ s.last_lane = some (-2) ∨ s.last_lane = some (-3)

/-- `add_emergency_stop` (lines 154-164): zero throttle, maximum brake,
hand-brake off, steering untouched. -/
def add_emergency_stop (max_brake : ℚ) (c : ControlInfo) : ControlInfo :=
  { c with throttle := 0, brake := max_brake, hand_brake := false }

/-- `_vehicle_obstacle_detected` (lines 480-485): hazard when the
front-center distance is below the threshold and vehicle checking is
not disabled. -/
def vehicle_obstacle_detected (ignore_vehicle : Bool)
    (distance_to_center_front max_dis : ℚ) : Bool :=
  decide (distance_to_center_front < max_dis) && !ignore_vehicle

/-- The vehicle-hazard threshold computed in `run_step` (line 227):
base threshold plus current speed. -/
def max_vehicle_distance (base_vehicle_threshold vehicle_speed : ℚ) : ℚ :=
  base_vehicle_threshold + vehicle_speed

/-- The full-scan loop of `_affected_by_traffic_light` (lines 514-541):
for each light in order, skip it when its trigger waypoint is too far,
on another road, facing against the vehicle, or not red; the first
remaining light within the distance/angle envelope is returned (it
becomes the new cache).  Returns `(hazard, governing light)`. -/
def scan_lights (max_distance : ℚ) (ego_road_id : Int) :
    List TrafficLight → Bool × Option TrafficLight
  | [] => (false, none)
  | tl :: rest =>
    if tl.trigger_dist > max_distance then
      scan_lights max_distance ego_road_id rest
    else if tl.trigger_road_id ≠ ego_road_id then
      scan_lights max_distance ego_road_id rest
    else if tl.dot_ve_wp < 0 then
      scan_lights max_distance ego_road_id rest
    else if tl.state ≠ TLState.Red then
      scan_lights max_distance ego_road_id rest
    else if tl.within then (true, some tl)
    else scan_lights max_distance ego_road_id rest

/-- `_affected_by_traffic_light` (lines 487-541).  `last_tl` is the
cached governing light (`self._last_traffic_light`) with its state as
read on this tick.  Python falsiness of `if not max_distance:` (true
for `0.0`) substitutes the base threshold.  Returns
`((hazard, reported light), new cache)`. -/
def affected_by_traffic_light (ignore_traffic_lights : Bool)
    (base_tlight_threshold : ℚ) (last_tl : Option TrafficLight)
    (lights : List TrafficLight) (max_distance_arg : ℚ) (ego_road_id : Int) :
    (Bool × Option TrafficLight) × Option TrafficLight :=
  if ignore_traffic_lights then ((false, none), last_tl)
  else
    let max_distance :=
      if max_distance_arg = 0 then base_tlight_threshold else max_distance_arg
    match last_tl with
    | some l =>
      if l.state ≠ TLState.Red then
        let r := scan_lights max_distance ego_road_id lights
        (r, r.2)
      else ((true, some l), some l)
    | none =>
      let r := scan_lights max_distance ego_road_id lights
      (r, r.2)

/-- The adjusted minimum look-ahead distance of `_pid_run_step`
(lines 345-346): the base minimum distance scaled by the complement of
(lateral offset from lane center) / 4. -/
def adjusted_min_distance (base_min_distance lateral_dist : ℚ) : ℚ :=
  base_min_distance * (1 - lateral_dist / 4)

/-- The discrete waypoint index offset of `_pid_run_step`
(lines 348-354), translated literally from the Python `if`/`elif`
chain (`next_wp = 1; if md > 1: 2; elif md > 2: 3; elif md > 3: 4`). -/
def next_wp_offset (min_distance : ℚ) : Nat :=
  if min_distance > 1 then 2
  else if min_distance > 2 then 3
  else if min_distance > 3 then 4
  else 1

/-- Modelled from the spec: the threshold mapping the spec states for
the look-ahead offset ("≤1 → offset 1; ≤2 → 2; ≤3 → 3; >3 → 4"),
written for comparison with the source's `next_wp_offset`. -/
def next_wp_offset_spec (min_distance : ℚ) : Nat :=
  if min_distance ≤ 1 then 1
  else if min_distance ≤ 2 then 2
  else if min_distance ≤ 3 then 3
  else 4

/-- The message of Python's `IndexError` raised by an out-of-range list
subscript. -/
def indexErrorMsg : String := "list index out of range"

/-- `_pid_run_step` (lines 331-371).  The external geometry
(`get_lane_center`, `location.distance`) is summarized by
`lateral_dist`, the lateral offset between the vehicle and its
lane-center waypoint; the external PID primitive is the function
argument `pid`.  Buffer indexing uses `List.get?`: a missing index is
Python's `IndexError` (list index out of range), returned as an error. -/
def pid_run_step (pid : ℚ → Waypoint → RawControl)
    (base_min_distance target_speed lateral_dist : ℚ)
    (left_wps center_wps right_wps : List Waypoint) (new_action : Action) :
    Except String ControlInfo :=
  let min_distance := adjusted_min_distance base_min_distance lateral_dist
  let next_wp := next_wp_offset min_distance
  let target : Option (ℚ × Waypoint) :=
    match new_action with
    | .LANE_CHANGE_LEFT =>
      (left_wps.get? (next_wp + 15 - 1)).map (fun w => (50, w))
    | .LANE_FOLLOW =>
      (center_wps.get? (next_wp + 2 - 1)).map (fun w => (target_speed, w))
    | .LANE_CHANGE_RIGHT =>
      (right_wps.get? (next_wp + 15 - 1)).map (fun w => (50, w))
  match target with
  | none => Except.error indexErrorMsg
  | some (ts, w) =>
    let c := pid ts w
    Except.ok ⟨c.throttle, c.brake, c.steer, c.gear, false⟩

/-- Fixtures used to instantiate theorems at concrete inputs: an
all-zero gap record, gaps where both neighbor lanes qualify for a
change, gaps where only the left neighbor qualifies, a red and a green
traffic light, a constant external PID primitive, and a small
configuration/perception pair. -/
def gZero : GapInfo := ⟨0, 0, 0, 0, 0, 0⟩

/-- Gaps where both neighbor lanes qualify for a gap-based change. -/
def gBoth : GapInfo := ⟨100, 1, 100, 10, 0, 10⟩

/-- Gaps where only the left neighbor qualifies. -/
def gLeft : GapInfo := ⟨100, 1, 0, 10, 0, 0⟩

/-- A red traffic light governing the vehicle. -/
def lRed : TrafficLight := ⟨7, TLState.Red, 0, 0, 1, true⟩

/-- The same light as `lRed` but gone green. -/
def lGreen : TrafficLight := ⟨7, TLState.Green, 0, 0, 1, true⟩

/-- A constant external PID primitive. -/
def pidConst : ℚ → Waypoint → RawControl := fun _ _ => ⟨1, 0, 1/2, 1⟩

/-- Five waypoints, enough for a lane-follow target at offset 2+2-1. -/
def wps5 : List Waypoint := [⟨0⟩, ⟨1⟩, ⟨2⟩, ⟨3⟩, ⟨4⟩]

/-- `np.clip` over rationals. -/
def clip (x lo hi : ℚ) : ℚ := min (max x lo) hi

/-- The steer clamp of `run_step` (lines 237-241): when the caller sets
`modify_change_steer`, an in-progress left change clamps steer to
`[-1, 0]` and a right change to `[0, 1]`. -/
def modify_steer (modify_change_steer : Bool) (new_action : Action)
    (c : ControlInfo) : ControlInfo :=
  if modify_change_steer then
    if new_action = Action.LANE_CHANGE_LEFT then
      { c with steer := clip c.steer (-1) 0 }
    else if new_action = Action.LANE_CHANGE_RIGHT then
      { c with steer := clip c.steer 0 1 }
    else c
  else c

/-- The enablement-flag update of `set_info` (lines 199-210): with
`ignore_change_gap` the flags are only ever raised (when the side's
front buffer is non-empty); without it both are recomputed from
scratch as "front buffer non-empty". -/
def set_info_enable (ignore_change_gap : Bool)
    (enable_left enable_right : Bool)
    (left_wps right_wps : List Waypoint) : Bool × Bool :=
  if ignore_change_gap then
    ((if left_wps.length ≠ 0 then true else enable_left),
     (if right_wps.length ≠ 0 then true else enable_right))
  else
    ((if left_wps.length ≠ 0 then true else false),
     (if right_wps.length ≠ 0 then true else false))

/-- A sequence of `set_info` calls acting on the enablement flags; each
element supplies that update's left and right front buffers. -/
def set_info_updates (ignore_change_gap : Bool) (flags : Bool × Bool)
    (ups : List (List Waypoint × List Waypoint)) : Bool × Bool :=
  ups.foldl
    (fun f u => set_info_enable ignore_change_gap f.1 f.2 u.1 u.2) flags

/-- The configuration fields of `Basic_Agent` relevant to `run_step`
(set in `__init__` / `opt_dict`). -/
structure Params where
  ignore_traffic_lights : Bool
  ignore_vehicle : Bool
  random_lane_change : Bool
  lanechanging_fps : Nat
  base_tlight_threshold : ℚ
  base_vehicle_threshold : ℚ
  max_brake : ℚ
  base_min_distance : ℚ
  target_speed : ℚ
deriving DecidableEq, Repr

/-- The mutable fields of `Basic_Agent` touched by `run_step`. -/
structure AgentState where
  last_traffic_light : Option TrafficLight
  last_lane : Option Int
  lane_change_mode : Bool
  autopilot_step : Nat
deriving DecidableEq, Repr

/-- The perception fields refreshed by `set_info` and consumed by
`run_step`: the three front waypoint buffers, the six gap distances and
the two enablement flags. -/
structure Perception where
  left_wps : List Waypoint
  center_wps : List Waypoint
  right_wps : List Waypoint
  g : GapInfo
  enable_left_change : Bool
  enable_right_change : Bool
deriving DecidableEq, Repr

/-- `run_step` (lines 215-245): bump the step counter, evaluate both
hazard detectors with speed-scaled thresholds, decide the maneuver,
run PID tracking, optionally clamp steer, then apply the emergency-stop
override when light-hazarded, or vehicle-hazarded while lane
following.  A PID `IndexError` propagates to the caller after the
state was already mutated.  Returns the updated state and either the
error or `(control, new_target_lane, new_action)`. -/
def run_step (p : Params) (pid : ℚ → Waypoint → RawControl)
    (per : Perception) (s : AgentState) (vehicle_speed : ℚ)
    (lights : List TrafficLight) (ego_road_id : Int) (lateral_dist : ℚ)
    (current_lane last_target_lane : Int) (last_action : Action)
    (modify_change_steer : Bool) (pick : Nat) :
    AgentState × Except String (ControlInfo × Int × Action) :=
  let step := s.autopilot_step + 1
  let affected_by_vehicle := vehicle_obstacle_detected p.ignore_vehicle
    per.g.center_front (max_vehicle_distance p.base_vehicle_threshold vehicle_speed)
  let tlr := affected_by_traffic_light p.ignore_traffic_lights
    p.base_tlight_threshold s.last_traffic_light lights
    (p.base_tlight_threshold + vehicle_speed) ego_road_id
  let affected_by_tlight := tlr.1.1
  let lcr := lane_change_action p.random_lane_change p.lanechanging_fps per.g
    per.enable_left_change per.enable_right_change
    ⟨s.last_lane, s.lane_change_mode⟩ current_lane last_target_lane
    last_action pick
  let new_action := lcr.2.1
  let new_target_lane := lcr.2.2
  let s2 : AgentState :=
    ⟨tlr.2, lcr.1.last_lane, lcr.1.lane_change_mode, step⟩
  match pid_run_step pid p.base_min_distance p.target_speed lateral_dist
      per.left_wps per.center_wps per.right_wps new_action with
  | .error e => (s2, Except.error e)
  | .ok c0 =>
    let c1 := modify_steer modify_change_steer new_action c0
    let c2 := if affected_by_tlight ||
        (decide (new_action = Action.LANE_FOLLOW) && affected_by_vehicle) then
      add_emergency_stop p.max_brake c1
    else c1
    (s2, .ok (c2, new_target_lane, new_action))

/-- A small configuration: detectors enabled, randomized policy with a
one-element hold list, default thresholds. -/
def pW : Params := ⟨false, false, true, 1, 5, 10, 3/10, 3, 20⟩

/-- A perception snapshot: five waypoints in each front buffer, zero
gaps, both sides enabled. -/
def perW : Perception := ⟨wps5, wps5, wps5, gZero, true, true⟩

theorem gate_follow (el er : Bool) :
    gate el er Action.LANE_FOLLOW = Action.LANE_FOLLOW := by
  cases el <;> cases er <;> decide

theorem gate_ne_left (er : Bool) (a : Action) :
    gate false er a ≠ Action.LANE_CHANGE_LEFT := by
  cases a <;> cases er <;> decide

theorem gate_ne_right (el : Bool) (a : Action) :
    gate el false a ≠ Action.LANE_CHANGE_RIGHT := by
  cases a <;> cases el <;> decide

theorem commit_step (rlc : Bool) (fps : Nat) (g : GapInfo) (el er : Bool)
    (l ltl : Int) (la : Action) (pick : Nat) (hl : l ≠ 0) :
    lane_change_action rlc fps g el er ⟨some l, true⟩ l ltl la pick =
      (⟨some l, true⟩, la, ltl) := by
  simp [lane_change_action, hl]

theorem adopt_step (rlc : Bool) (fps : Nat) (g : GapInfo) (el er : Bool)
    (l ltl : Int) (la : Action) (pick : Nat) (hl : l ≠ 0) :
    lane_change_action rlc fps g el er ⟨some l, false⟩ l ltl la pick =
      (⟨some l, decide (gate el er (if rlc then random_policy fps l pick
          else gap_lane_change l g pick) ≠ Action.LANE_FOLLOW)⟩,
        gate el er (if rlc then random_policy fps l pick
          else gap_lane_change l g pick),
        l - (gate el er (if rlc then random_policy fps l pick
          else gap_lane_change l g pick)).value) := by
  simp [lane_change_action, hl]

theorem finish_step (rlc : Bool) (fps : Nat) (g : GapInfo) (el er : Bool)
    (l cur ltl : Int) (mode : Bool) (la : Action) (pick : Nat)
    (hl : l ≠ 0) (hne : cur ≠ l) :
    lane_change_action rlc fps g el er ⟨some l, mode⟩ cur ltl la pick =
      (⟨some cur, false⟩, Action.LANE_FOLLOW, cur) := by
  simp [lane_change_action, hl, hne]

theorem zero_step (rlc : Bool) (fps : Nat) (g : GapInfo) (el er : Bool)
    (cur ltl : Int) (mode : Bool) (la : Action) (pick : Nat) :
    lane_change_action rlc fps g el er ⟨some 0, mode⟩ cur ltl la pick =
      (⟨some cur, false⟩, Action.LANE_FOLLOW, cur) := by
  simp [lane_change_action]

theorem none_step (rlc : Bool) (fps : Nat) (g : GapInfo) (el er : Bool)
    (cur ltl : Int) (mode : Bool) (la : Action) (pick : Nat) :
    lane_change_action rlc fps g el er ⟨none, mode⟩ cur ltl la pick =
      (⟨some cur, false⟩, Action.LANE_FOLLOW, cur) := by
  simp [lane_change_action]

/-- C1: Commitment: for every sequence of ticks, once a step has
returned a lane-change action and set the in-progress flag (state
`⟨some l, true⟩` with recorded output `(a, tl)`), every subsequent tick
whose `current_lane` equals the recorded `last_lane` returns exactly
the same action and target lane as the previous tick, for arbitrary
gaps, enablement flags and policy draws (the candidate is ignored), and
the machine stays committed: the whole trace of outputs is the constant
`(a, tl)`. -/
theorem C1_commitment (rlc : Bool) (fps : Nat) (l : Int) (a : Action)
    (tl : Int) (ticks : List TickInput) (hl : l ≠ 0)
    (hticks : ∀ t ∈ ticks, t.current_lane = l) :
    runTrace rlc fps ⟨some l, true⟩ (a, tl) ticks =
      (List.replicate ticks.length (a, tl), ⟨some l, true⟩) := by
  induction ticks with
  | nil => rfl
  | cons t rest ih =>
    have ht : t.current_lane = l := hticks t (List.mem_cons_self t rest)
    have hrest : ∀ u ∈ rest, u.current_lane = l :=
      fun u hu => hticks u (List.mem_cons_of_mem t hu)
    simp only [runTrace, ht,
      commit_step rlc fps t.g t.enable_left t.enable_right l tl a t.pick hl,
      ih hrest, List.length_cons, List.replicate_succ]

/-- Witness for C1 at a concrete committed state and one tick. -/
theorem C1_commitment_witness :
    runTrace true 1 ⟨some (-2), true⟩ (Action.LANE_CHANGE_LEFT, -1)
      [⟨-2, true, true, gZero, 0⟩] =
      (List.replicate 1 (Action.LANE_CHANGE_LEFT, -1), ⟨some (-2), true⟩) :=
  C1_commitment true 1 (-2) Action.LANE_CHANGE_LEFT (-1)
    [⟨-2, true, true, gZero, 0⟩] (by decide) (by decide)

/-- C2 counterexample: the gating invariant as stated ("for every tick
on which leftEnabled is false, the action returned is not CHANGE_LEFT
... regardless of whether a change is already in progress") is false.
Concrete run from the initial state under the gap-based policy: tick 1
records the lane, tick 2 initiates a left change (left enabled, left
gap qualifying), tick 3 has `enable_left = false` yet still returns
CHANGE_LEFT, because an in-progress change repeats the previous action
verbatim without re-gating. -/
theorem C2_gating_counterexample :
    (runTrace false 50 ⟨none, false⟩ (Action.LANE_FOLLOW, 0)
        [⟨-2, true, true, gZero, 0⟩, ⟨-2, true, true, gLeft, 0⟩,
          ⟨-2, false, true, gZero, 0⟩]).1 =
      [(Action.LANE_FOLLOW, -2), (Action.LANE_CHANGE_LEFT, -1),
        (Action.LANE_CHANGE_LEFT, -1)] := by
  decide

/-- C2 amended: gating applies to the newly adopted candidate, not to
the verbatim repeat of an in-progress change: on every tick on which no
change is already in progress (`lane_change_mode = false`), if
`enable_left_change` is false the returned action is not CHANGE_LEFT,
and if `enable_right_change` is false it is not CHANGE_RIGHT, for both
decision policies. -/
theorem C2_gating_amended (rlc : Bool) (fps : Nat) (g : GapInfo)
    (el er : Bool) (s : LaneState) (cur ltl : Int) (la : Action)
    (pick : Nat) (hmode : s.lane_change_mode = false) :
    (el = false →
      (lane_change_action rlc fps g el er s cur ltl la pick).2.1 ≠
        Action.LANE_CHANGE_LEFT) ∧
    (er = false →
      (lane_change_action rlc fps g el er s cur ltl la pick).2.1 ≠
        Action.LANE_CHANGE_RIGHT) := by
  obtain ⟨ll, mode⟩ := s
  cases mode with
  | true => exact absurd hmode (by simp)
  | false =>
    cases ll with
    | none =>
      rw [none_step]
      exact ⟨fun _ => by simp, fun _ => by simp⟩
    | some l =>
      by_cases hl : l = 0
      · subst hl
        rw [zero_step]
        exact ⟨fun _ => by simp, fun _ => by simp⟩
      · by_cases hcl : cur = l
        · subst hcl
          rw [adopt_step rlc fps g el er cur ltl la pick hl]
          constructor
          · intro hel
            subst hel
            exact gate_ne_left er _
          · intro her
            subst her
            exact gate_ne_right el _
        · rw [finish_step rlc fps g el er l cur ltl false la pick hl hcl]
          exact ⟨fun _ => by simp, fun _ => by simp⟩

/-- Witness for the amended C2 at a concrete not-in-progress state. -/
theorem C2_gating_amended_witness :
    (lane_change_action false 50 gBoth false false ⟨some (-2), false⟩
        (-2) (-2) Action.LANE_FOLLOW 0).2.1 ≠ Action.LANE_CHANGE_LEFT :=
  (C2_gating_amended false 50 gBoth false false ⟨some (-2), false⟩
    (-2) (-2) Action.LANE_FOLLOW 0 rfl).1 rfl

theorem candidate_unrecognized (rlc : Bool) (fps : Nat) (g : GapInfo)
    (lane : Int) (pick : Nat) (h1 : lane ≠ -1) (h2 : lane ≠ -2)
    (h3 : lane ≠ -3) :
    (if rlc then random_policy fps lane pick
      else gap_lane_change lane g pick) = Action.LANE_FOLLOW := by
  cases rlc <;> simp [random_policy, gap_lane_change, h1, h2, h3]

theorem modeInv_step (rlc : Bool) (fps : Nat) (g : GapInfo) (el er : Bool)
    (s : LaneState) (cur ltl : Int) (la : Action) (pick : Nat)
    (hs : ModeInv s) :
    ModeInv (lane_change_action rlc fps g el er s cur ltl la pick).1 := by
  obtain ⟨ll, mode⟩ := s
  cases ll with
  | none => rw [none_step]; intro h; exact absurd h (by simp)
  | some l =>
    by_cases hl : l = 0
    · subst hl
      rw [zero_step]
      intro h
      exact absurd h (by simp)
    · by_cases hcl : cur = l
      · subst hcl
        cases mode with
        | true =>
          rw [commit_step rlc fps g el er cur ltl la pick hl]
          intro _
          exact hs rfl
        | false =>
          rw [adopt_step rlc fps g el er cur ltl la pick hl]
          intro h
          simp only [decide_eq_true_eq] at h
          by_cases h1 : cur = -1
          · exact Or.inl (by rw [h1])
          by_cases h2 : cur = -2
          · exact Or.inr (Or.inl (by rw [h2]))
          by_cases h3 : cur = -3
          · exact Or.inr (Or.inr (by rw [h3]))
          exact absurd (by
            rw [candidate_unrecognized rlc fps g cur pick h1 h2 h3]
            exact gate_follow el er) h
      · rw [finish_step rlc fps g el er l cur ltl mode la pick hl hcl]
        intro h
        exact absurd h (by simp)

theorem modeInv_runTrace (rlc : Bool) (fps : Nat) (s : LaneState)
    (prev : Action × Int) (ticks : List TickInput) (hs : ModeInv s) :
    ModeInv (runTrace rlc fps s prev ticks).2 := by
  induction ticks generalizing s prev with
  | nil => exact hs
  | cons t rest ih =>
    simp only [runTrace]
    exact ih _ _ (modeInv_step rlc fps t.g t.enable_left t.enable_right s
      t.current_lane prev.2 prev.1 t.pick hs)

theorem follow_of_unrecognized (rlc : Bool) (fps : Nat) (g : GapInfo)
    (el er : Bool) (s : LaneState) (cur ltl : Int) (la : Action)
    (pick : Nat) (hs : ModeInv s) (h1 : cur ≠ -1) (h2 : cur ≠ -2)
    (h3 : cur ≠ -3) :
    (lane_change_action rlc fps g el er s cur ltl la pick).2.1 =
      Action.LANE_FOLLOW := by
  obtain ⟨ll, mode⟩ := s
  cases ll with
  | none => rw [none_step]
  | some l =>
    by_cases hl : l = 0
    · subst hl; rw [zero_step]
    · by_cases hcl : cur = l
      · subst hcl
        cases mode with
        | true =>
          rcases hs rfl with h | h | h <;>
            simp only [Option.some.injEq] at h
          · exact absurd h h1
          · exact absurd h h2
          · exact absurd h h3
        | false =>
          rw [adopt_step rlc fps g el er cur ltl la pick hl]
          simp only
          rw [candidate_unrecognized rlc fps g cur pick h1 h2 h3]
          exact gate_follow el er
      · rw [finish_step rlc fps g el er l cur ltl mode la pick hl hcl]

/-- C9: Unrecognized lane: on every tick of any execution from the
initial state on which `current_lane` is outside {LEFT=-1, CENTER=-2,
RIGHT=-3}, the maneuver decision does not fail: it returns HOLD_LANE
(LANE_FOLLOW), whatever history of ticks preceded it, whichever policy
is configured and whatever the threaded previous action and target
were. -/
theorem C9_unrecognized_lane (rlc : Bool) (fps : Nat)
    (hist : List TickInput) (prev : Action × Int) (t : TickInput)
    (ltl : Int) (la : Action) (h1 : t.current_lane ≠ -1)
    (h2 : t.current_lane ≠ -2) (h3 : t.current_lane ≠ -3) :
    (lane_change_action rlc fps t.g t.enable_left t.enable_right
        (runTrace rlc fps ⟨none, false⟩ prev hist).2 t.current_lane ltl
        la t.pick).2.1 = Action.LANE_FOLLOW :=
  follow_of_unrecognized rlc fps t.g t.enable_left t.enable_right _
    t.current_lane ltl la t.pick
    (modeInv_runTrace rlc fps ⟨none, false⟩ prev hist
      (fun h => absurd h (by simp)))
    h1 h2 h3

/-- Witness for C9: after a one-tick history, a tick reporting lane -4
returns LANE_FOLLOW. -/
theorem C9_unrecognized_lane_witness :
    (lane_change_action true 1 (gBoth) true true
        (runTrace true 1 ⟨none, false⟩ (Action.LANE_FOLLOW, 0)
          [⟨-2, true, true, gZero, 0⟩]).2 (-4) 0
        Action.LANE_CHANGE_LEFT 0).2.1 = Action.LANE_FOLLOW :=
  C9_unrecognized_lane true 1 [⟨-2, true, true, gZero, 0⟩]
    (Action.LANE_FOLLOW, 0) ⟨-4, true, true, gBoth, 0⟩ 0
    Action.LANE_CHANGE_LEFT (by decide) (by decide) (by decide)

/-- C4: Look-ahead mapping.  The first part of the claim holds: the
adjusted minimum look-ahead distance is the base minimum distance
(default 3) scaled by `1 - lateralOffset/4`.  The threshold mapping
does not: the source's `if md > 1 / elif md > 2 / elif md > 3` chain
makes the offsets 3 and 4 unreachable (any distance above 1 already
takes the first branch).  At base 3 and lateral offset 2/3 the adjusted
distance is 5/2, for which the code yields offset 2 while the spec's
mapping (`next_wp_offset_spec`) yields 3; at adjusted distance 4 the
code again yields 2 while the spec's mapping yields 4. -/
theorem C4_lookahead_mapping :
    adjusted_min_distance 3 (2/3) = 5/2 ∧
    next_wp_offset (adjusted_min_distance 3 (2/3)) = 2 ∧
    next_wp_offset_spec (adjusted_min_distance 3 (2/3)) = 3 ∧
    next_wp_offset 4 = 2 ∧
    next_wp_offset_spec 4 = 4 := by
  decide

/-- C5: Red-light cache: with light checking enabled and a governing
light `l` cached, (a) if `l` is still red the detector reports a hazard
with that same light and keeps the cache, and the result is this for
every possible light list — the full scan is not consulted; (b) if `l`
is no longer red, the result and the new cache are exactly those of the
full scan over the supplied light list on this same tick (the cache
entry is dropped, and re-populated only by the scan). -/
theorem C5_red_light_cache (base maxd : ℚ) (l : TrafficLight)
    (lights : List TrafficLight) (rid : Int) :
    (l.state = TLState.Red →
      affected_by_traffic_light false base (some l) lights maxd rid =
        ((true, some l), some l)) ∧
    (l.state ≠ TLState.Red →
      affected_by_traffic_light false base (some l) lights maxd rid =
        (scan_lights (if maxd = 0 then base else maxd) rid lights,
          (scan_lights (if maxd = 0 then base else maxd) rid lights).2)) := by
  constructor
  · intro h
    simp [affected_by_traffic_light, h]
  · intro h
    simp [affected_by_traffic_light, h]

/-- Witness for C5: a cached red light on an empty list (fast path),
and the same light gone green (falls through to the scan). -/
theorem C5_red_light_cache_witness :
    affected_by_traffic_light false 5 (some lRed) [] 5 0 =
      ((true, some lRed), some lRed) ∧
    affected_by_traffic_light false 5 (some lGreen) [] 5 0 =
      (scan_lights (if (5:ℚ) = 0 then 5 else 5) 0 [],
        (scan_lights (if (5:ℚ) = 0 then 5 else 5) 0 []).2) :=
  ⟨(C5_red_light_cache 5 5 lRed [] 0).1 rfl,
    (C5_red_light_cache 5 5 lGreen [] 0).2 (by decide)⟩

/-- C6: Vehicle hazard: with the threshold computed as in `run_step`
(base plus current speed), a hazard is reported iff vehicle checking is
not disabled and the front-center distance is strictly below the
threshold; and for a fixed base the threshold strictly increases with
speed. -/
theorem C6_vehicle_hazard :
    (∀ (ig : Bool) (d base speed : ℚ),
      vehicle_obstacle_detected ig d (max_vehicle_distance base speed) =
          true ↔
        ig = false ∧ d < base + speed) ∧
    ∀ (base s1 s2 : ℚ), s1 < s2 →
      max_vehicle_distance base s1 < max_vehicle_distance base s2 := by
  constructor
  · intro ig d base speed
    cases ig <;> simp [vehicle_obstacle_detected, max_vehicle_distance]
  · intro base s1 s2 h
    simpa [max_vehicle_distance] using add_lt_add_left h base

/-- Witness for C6 at distance 3, base 10, speeds 0 and 10. -/
theorem C6_vehicle_hazard_witness :
    vehicle_obstacle_detected false 3 (max_vehicle_distance 10 0) = true ∧
    max_vehicle_distance 10 0 < max_vehicle_distance 10 10 :=
  ⟨(C6_vehicle_hazard.1 false 3 10 0).2 ⟨rfl, by norm_num⟩,
    C6_vehicle_hazard.2 10 0 10 (by norm_num)⟩

theorem sticky_flags (ups : List (List Waypoint × List Waypoint)) :
    ∀ f : Bool × Bool,
      (f.1 = true → (set_info_updates true f ups).1 = true) ∧
      (f.2 = true → (set_info_updates true f ups).2 = true) := by
  induction ups with
  | nil => exact fun f => ⟨fun h => h, fun h => h⟩
  | cons u rest ih =>
    intro f
    constructor
    · intro h
      exact (ih (set_info_enable true f.1 f.2 u.1 u.2)).1
        (by simp [set_info_enable, h])
    · intro h
      exact (ih (set_info_enable true f.1 f.2 u.1 u.2)).2
        (by simp [set_info_enable, h])

/-- C10: Sticky enablement under `ignore_change_gap`: with the flag
set, no sequence of `set_info` updates ever lowers a raised enablement
flag (even when the corresponding front buffer is empty on every
update); with the flag unset, one update recomputes each side's flag to
be exactly "that side's front waypoint buffer is non-empty". -/
theorem C10_sticky_enablement (el er : Bool) (lws rws : List Waypoint)
    (ups : List (List Waypoint × List Waypoint)) :
    (el = true → (set_info_updates true (el, er) ups).1 = true) ∧
    (er = true → (set_info_updates true (el, er) ups).2 = true) ∧
    ((set_info_enable false el er lws rws).1 = true ↔ lws ≠ []) ∧
    ((set_info_enable false el er lws rws).2 = true ↔ rws ≠ []) := by
  refine ⟨(sticky_flags ups (el, er)).1, (sticky_flags ups (el, er)).2,
    ?_, ?_⟩
  · simp [set_info_enable, List.length_eq_zero]
  · simp [set_info_enable, List.length_eq_zero]

/-- Witness for C10: raised flags survive an update with both front
buffers empty. -/
theorem C10_sticky_enablement_witness :
    (set_info_updates true (true, true) [([], [])]).1 = true ∧
    (set_info_updates true (true, true) [([], [])]).2 = true :=
  ⟨(C10_sticky_enablement true true [] [] [([], [])]).1 rfl,
    (C10_sticky_enablement true true [] [] [([], [])]).2.1 rfl⟩

/-- C8: Empty buffer: whenever the buffer selected by the decided
action is shorter than the required one-based index (the look-ahead
offset plus base 15 for a change, plus base 2 for lane following),
`_pid_run_step` does not return a command: it fails with Python's
out-of-range IndexError, which propagates to the caller. -/
theorem C8_empty_buffer (pid : ℚ → Waypoint → RawControl)
    (bmd ts lat : ℚ) (lws cws rws : List Waypoint) :
    (lws.length < next_wp_offset (adjusted_min_distance bmd lat) + 15 →
      pid_run_step pid bmd ts lat lws cws rws Action.LANE_CHANGE_LEFT =
        Except.error indexErrorMsg) ∧
    (cws.length < next_wp_offset (adjusted_min_distance bmd lat) + 2 →
      pid_run_step pid bmd ts lat lws cws rws Action.LANE_FOLLOW =
        Except.error indexErrorMsg) ∧
    (rws.length < next_wp_offset (adjusted_min_distance bmd lat) + 15 →
      pid_run_step pid bmd ts lat lws cws rws Action.LANE_CHANGE_RIGHT =
        Except.error indexErrorMsg) := by
  refine ⟨fun h => ?_, fun h => ?_, fun h => ?_⟩
  · have hn : lws[next_wp_offset (adjusted_min_distance bmd lat) + 14]? =
        none := List.getElem?_eq_none (by omega)
    simp [pid_run_step, hn]
  · have hn : cws[next_wp_offset (adjusted_min_distance bmd lat) + 1]? =
        none := List.getElem?_eq_none (by omega)
    simp [pid_run_step, hn]
  · have hn : rws[next_wp_offset (adjusted_min_distance bmd lat) + 14]? =
        none := List.getElem?_eq_none (by omega)
    simp [pid_run_step, hn]

/-- Witness for C8: a left change with an empty left buffer fails. -/
theorem C8_empty_buffer_witness :
    pid_run_step pidConst 3 20 0 [] wps5 wps5 Action.LANE_CHANGE_LEFT =
      Except.error indexErrorMsg :=
  (C8_empty_buffer pidConst 3 20 0 [] wps5 wps5).1 (by decide)

/-- C7: Gap-based policy.  A CHANGE_LEFT candidate is produced only
when the left-slot front gap exceeds the current (center-slot) front
gap by more than 5 and the left-slot rear gap exceeds 1, and only from
the center lane (-2) or the right lane (-3) — never from the left
lane (-1); symmetrically for CHANGE_RIGHT.  From the center lane each
qualifying direction is reachable by some random draw (both are
candidates; one is chosen by `random.choice` when both qualify). -/
theorem C7_gap_policy (g : GapInfo) (lane : Int) (pick : Nat) :
    (gap_lane_change lane g pick = Action.LANE_CHANGE_LEFT →
      g.left_front - g.center_front > 5 ∧ g.left_rear > 1 ∧
        (lane = -2 ∨ lane = -3)) ∧
    (gap_lane_change lane g pick = Action.LANE_CHANGE_RIGHT →
      g.right_front - g.center_front > 5 ∧ g.right_rear > 1 ∧
        (lane = -2 ∨ lane = -1)) ∧
    (lane = -2 → g.left_front - g.center_front > 5 → g.left_rear > 1 →
      ∃ k, gap_lane_change lane g k = Action.LANE_CHANGE_LEFT) ∧
    (lane = -2 → g.right_front - g.center_front > 5 → g.right_rear > 1 →
      ∃ k, gap_lane_change lane g k = Action.LANE_CHANGE_RIGHT) := by
  by_cases h2 : lane = -2
  · subst h2
    by_cases hL : g.left_front - g.center_front > 5 ∧ g.left_rear > 1 <;>
      by_cases hR : g.right_front - g.center_front > 5 ∧ g.right_rear > 1
    · refine ⟨fun _ => ⟨hL.1, hL.2, Or.inl rfl⟩,
        fun _ => ⟨hR.1, hR.2, Or.inl rfl⟩,
        fun _ _ _ => ⟨0, ?_⟩, fun _ _ _ => ⟨1, ?_⟩⟩
      · simp [gap_lane_change, hL, hR, choice, Nat.mod_one]
      · simp [gap_lane_change, hL, hR, choice, Nat.mod_one]
    · refine ⟨fun _ => ⟨hL.1, hL.2, Or.inl rfl⟩, fun hc => ?_,
        fun _ _ _ => ⟨0, ?_⟩, fun _ h5 h1 => absurd ⟨h5, h1⟩ hR⟩
      · rw [show gap_lane_change (-2) g pick = Action.LANE_CHANGE_LEFT by
          simp [gap_lane_change, hL, hR, choice, Nat.mod_one]] at hc
        exact absurd hc (by decide)
      · simp [gap_lane_change, hL, hR, choice, Nat.mod_one]
    · refine ⟨fun hc => ?_, fun _ => ⟨hR.1, hR.2, Or.inl rfl⟩,
        fun _ h5 h1 => absurd ⟨h5, h1⟩ hL, fun _ _ _ => ⟨0, ?_⟩⟩
      · rw [show gap_lane_change (-2) g pick = Action.LANE_CHANGE_RIGHT by
          simp [gap_lane_change, hL, hR, choice, Nat.mod_one]] at hc
        exact absurd hc (by decide)
      · simp [gap_lane_change, hL, hR, choice, Nat.mod_one]
    · rw [show gap_lane_change (-2) g pick = Action.LANE_FOLLOW by
        simp [gap_lane_change, hL, hR]]
      exact ⟨fun hc => absurd hc (by decide), fun hc => absurd hc (by decide),
        fun _ h5 h1 => absurd ⟨h5, h1⟩ hL, fun _ h5 h1 => absurd ⟨h5, h1⟩ hR⟩
  · refine ⟨?_, ?_, fun hc => absurd hc h2, fun hc => absurd hc h2⟩
    · by_cases h3 : lane = -3
      · subst h3
        by_cases hL : g.left_front - g.center_front > 5 ∧ g.left_rear > 1
        · exact fun _ => ⟨hL.1, hL.2, Or.inr rfl⟩
        · rw [show gap_lane_change (-3) g pick = Action.LANE_FOLLOW by
            simp [gap_lane_change, hL]]
          exact fun hc => absurd hc (by decide)
      · by_cases h1 : lane = -1
        · subst h1
          intro hc
          by_cases hR : g.right_front - g.center_front > 5 ∧ g.right_rear > 1
          · rw [show gap_lane_change (-1) g pick =
                Action.LANE_CHANGE_RIGHT by simp [gap_lane_change, hR]] at hc
            exact absurd hc (by decide)
          · rw [show gap_lane_change (-1) g pick = Action.LANE_FOLLOW by
              simp [gap_lane_change, hR]] at hc
            exact absurd hc (by decide)
        · rw [show gap_lane_change lane g pick = Action.LANE_FOLLOW by
            simp [gap_lane_change, h1, h2, h3]]
          exact fun hc => absurd hc (by decide)
    · by_cases h1 : lane = -1
      · subst h1
        by_cases hR : g.right_front - g.center_front > 5 ∧ g.right_rear > 1
        · exact fun _ => ⟨hR.1, hR.2, Or.inr rfl⟩
        · rw [show gap_lane_change (-1) g pick = Action.LANE_FOLLOW by
            simp [gap_lane_change, hR]]
          exact fun hc => absurd hc (by decide)
      · by_cases h3 : lane = -3
        · subst h3
          intro hc
          by_cases hL : g.left_front - g.center_front > 5 ∧ g.left_rear > 1
          · rw [show gap_lane_change (-3) g pick =
                Action.LANE_CHANGE_LEFT by simp [gap_lane_change, hL]] at hc
            exact absurd hc (by decide)
          · rw [show gap_lane_change (-3) g pick = Action.LANE_FOLLOW by
              simp [gap_lane_change, hL]] at hc
            exact absurd hc (by decide)
        · rw [show gap_lane_change lane g pick = Action.LANE_FOLLOW by
            simp [gap_lane_change, h1, h2, h3]]
          exact fun hc => absurd hc (by decide)

/-- Witness for C7: from the right lane with a qualifying left gap the
candidate is CHANGE_LEFT and the gap conditions hold; from the center
lane with both sides qualifying, both directions are reachable. -/
theorem C7_gap_policy_witness :
    (gBoth.left_front - gBoth.center_front > 5 ∧ gBoth.left_rear > 1 ∧
      ((-3 : Int) = -2 ∨ (-3 : Int) = -3)) ∧
    (∃ k, gap_lane_change (-2) gBoth k = Action.LANE_CHANGE_LEFT) ∧
    (∃ k, gap_lane_change (-2) gBoth k = Action.LANE_CHANGE_RIGHT) :=
  ⟨(C7_gap_policy gBoth (-3) 0).1 (by decide),
    (C7_gap_policy gBoth (-2) 0).2.2.1 rfl (by decide) (by decide),
    (C7_gap_policy gBoth (-2) 0).2.2.2 rfl (by decide) (by decide)⟩

/-- C3: Hazard override: on any tick of `run_step` that returns a
command (PID tracking succeeded with nominal output `c0`), if the
traffic-light detector reported a hazard, or the vehicle detector
reported a hazard while the decided action is LANE_FOLLOW, then the
returned command has throttle 0, brake equal to the configured maximum
brake, hand-brake off, and steer exactly the nominal (possibly
clamped) value. -/
theorem C3_hazard_override (p : Params) (pid : ℚ → Waypoint → RawControl)
    (per : Perception) (s : AgentState) (speed : ℚ)
    (lights : List TrafficLight) (rid : Int) (lat : ℚ) (cur ltl : Int)
    (la : Action) (ms : Bool) (pick : Nat) (c : ControlInfo) (ntl : Int)
    (na : Action) (s2 : AgentState) (c0 : ControlInfo)
    (hrun : run_step p pid per s speed lights rid lat cur ltl la ms pick =
      (s2, Except.ok (c, ntl, na)))
    (hpid : pid_run_step pid p.base_min_distance p.target_speed lat
      per.left_wps per.center_wps per.right_wps na = Except.ok c0)
    (hhaz : (affected_by_traffic_light p.ignore_traffic_lights
        p.base_tlight_threshold s.last_traffic_light lights
        (p.base_tlight_threshold + speed) rid).1.1 = true ∨
      (vehicle_obstacle_detected p.ignore_vehicle per.g.center_front
          (max_vehicle_distance p.base_vehicle_threshold speed) = true ∧
        na = Action.LANE_FOLLOW)) :
    c.throttle = 0 ∧ c.brake = p.max_brake ∧ c.hand_brake = false ∧
      c.steer = (modify_steer ms na c0).steer := by
  simp only [run_step] at hrun
  split at hrun
  · exact absurd hrun (by simp)
  · rename_i c1 heq
    simp only [Prod.mk.injEq, Except.ok.injEq] at hrun
    obtain ⟨hs2, hc, hntl, hna⟩ := hrun
    rw [hna] at heq
    rw [heq] at hpid
    injection hpid with hc1
    subst hc1
    have hcond : ((affected_by_traffic_light p.ignore_traffic_lights
        p.base_tlight_threshold s.last_traffic_light lights
        (p.base_tlight_threshold + speed) rid).1.1 ||
        (decide ((lane_change_action p.random_lane_change
            p.lanechanging_fps per.g per.enable_left_change
            per.enable_right_change ⟨s.last_lane, s.lane_change_mode⟩ cur
            ltl la pick).2.1 = Action.LANE_FOLLOW) &&
          vehicle_obstacle_detected p.ignore_vehicle per.g.center_front
            (max_vehicle_distance p.base_vehicle_threshold speed))) =
        true := by
      rcases hhaz with h | ⟨hveh, hfol⟩
      · simp [h]
      · rw [hna, hfol, hveh]
        simp
    rw [hcond] at hc
    simp only [if_true] at hc
    rw [← hc, hna]
    simp [add_emergency_stop]

/-- Witness for C3: a cached red light forces an emergency stop on a
concrete first tick. -/
theorem C3_hazard_override_witness :
    (⟨0, 3/10, 1/2, 1, false⟩ : ControlInfo).throttle = 0 ∧
    (⟨0, 3/10, 1/2, 1, false⟩ : ControlInfo).brake = pW.max_brake ∧
    (⟨0, 3/10, 1/2, 1, false⟩ : ControlInfo).hand_brake = false ∧
    (⟨0, 3/10, 1/2, 1, false⟩ : ControlInfo).steer =
      (modify_steer false Action.LANE_FOLLOW ⟨1, 0, 1/2, 1, false⟩).steer :=
  C3_hazard_override pW pidConst perW ⟨some lRed, none, false, 0⟩ 0 [] 0 0
    (-2) 0 Action.LANE_FOLLOW false 0 ⟨0, 3/10, 1/2, 1, false⟩ (-2)
    Action.LANE_FOLLOW ⟨some lRed, some (-2), false, 1⟩ ⟨1, 0, 1/2, 1, false⟩
    rfl rfl (Or.inl rfl)

end

end BasicAgent
